import Mathlib

/-!
Shallow embedding of the Moltbook CLI client (src/molt-client.py).

The program is a thin HTTP client: a credential store backed by a `.env`
key-value file (python-dotenv `load_dotenv` / `set_key` / `os.getenv`), a
registration flow that extracts a nested `agent` record from a JSON response
and persists it, and per-operation wrappers that attach a bearer-token header
and unwrap JSON bodies.

HTTP responses are modelled as values handed to each operation: a call result
is either a raised transport error or a response carrying a status code and a
(possibly failing) JSON body.  Mutable process state (the `.env` file, the
`os.environ` mapping, the client object) is threaded explicitly.
-/

set_option autoImplicit false

namespace MoltClient

/-- JSON values as produced by `response.json()`.  An `obj` models a Python
dict (its field list stands for the insertion-ordered entries of the dict). -/
inductive Json where
  | null
  | bool (b : Bool)
  | num (n : Int)
  | str (s : String)
  | arr (elems : List Json)
  | obj (fields : List (String × Json))

/-- Python truthiness of a JSON value, as used by `if not agent_data:` and
`if val:` in `register` (line 37 and line 55 of molt-client.py). -/
def Json.truthy : Json → Bool
  | .null => false
  | .bool b => b
  | .num n => n != 0
  | .str s => s != ""
  | .arr xs => !xs.isEmpty
  | .obj fields => !fields.isEmpty

/-- Python `dict.get(key, default)` on the field list of a JSON object: the first
entry with the key, or the default. -/
def dictGetD (fields : List (String × Json)) (key : String) (d : Json) : Json :=
  match fields.find? (fun p => p.1 == key) with
  | some p => p.2
  | none => d

mutual

/-- Python `str(...)` on a JSON value (mutually with the `repr` rendering used
inside containers).  Only scalar values ever reach `str` along the paths the
client exercises, but the rendering is total. -/
def pyStr : Json → String
  | .null => "None"
  | .bool true => "True"
  | .bool false => "False"
  | .num n => toString n
  | .str s => s
  | .arr xs => "[" ++ pyReprElems xs ++ "]"
  | .obj fields => "\x7b" ++ pyReprFields fields ++ "\x7d"

def pyRepr : Json → String
  | .null => "None"
  | .bool true => "True"
  | .bool false => "False"
  | .num n => toString n
  | .str s => "\x27" ++ s ++ "\x27"
  | .arr xs => "[" ++ pyReprElems xs ++ "]"
  | .obj fields => "\x7b" ++ pyReprFields fields ++ "\x7d"

def pyReprElems : List Json → String
  | [] => ""
  | [x] => pyRepr x
  | x :: xs => pyRepr x ++ ", " ++ pyReprElems xs

def pyReprFields : List (String × Json) → String
  | [] => ""
  | [(k, v)] => "\x27" ++ k ++ "\x27: " ++ pyRepr v
  | (k, v) :: rest => "\x27" ++ k ++ "\x27: " ++ pyRepr v ++ ", " ++ pyReprFields rest

end

/-- Exceptions the Python code can raise and catch: `requests` transport
errors, `raise_for_status` HTTP errors, JSON decode errors, and the
`AttributeError` raised by calling `.get` on a non-dict. -/
inductive PyErr where
  | network (msg : String)
  | httpStatus (code : Nat)
  | jsonDecode
  | attributeError
deriving DecidableEq

/-- A received HTTP response: status code plus the outcome of `.json()`
(the body parse can itself raise). -/
structure HttpResponse where
  status : Nat
  jsonBody : Except PyErr Json

/-- Model of `response.raise_for_status()`: raises exactly for a 4xx/5xx
status code (400-599); any other deliverable status proceeds. -/
def raiseForStatus (r : HttpResponse) : Except PyErr Unit :=
  if 400 ≤ r.status ∧ r.status < 600 then .error (.httpStatus r.status) else .ok ()

/-- The key-value contents of the `.env` file, and also the `os.environ`
mapping: an ordered list of bindings, looked up first-match. -/
abbrev Store := List (String × String)

/-- Model of `os.getenv`: the value of the first binding of the key, if any. -/
def getenv (env : Store) (key : String) : Option String :=
  (env.find? (fun p => p.1 == key)).map (fun p => p.2)

/-- Overwrite every binding of a key already known to occur, without
appending. -/
def setKeyAll : Store → String → String → Store
  | [], _, _ => []
  | kv :: rest, k, v =>
    (if kv.1 = k then (k, v) else kv) :: setKeyAll rest k v

/-- Model of python-dotenv `set_key`: overwrite every binding of the key with the new
value, appending a fresh binding when the key is absent. -/
def setKey : Store → String → String → Store
  | [], k, v => [(k, v)]
  | kv :: rest, k, v =>
    if kv.1 = k then (k, v) :: setKeyAll rest k v
    else kv :: setKey rest k v

/-- Model of python-dotenv `load_dotenv(path, override)`: fold the bindings of the file into
the process environment; without `override`, keys already present in the
environment are kept.  A missing file is a no-op (and no error). -/
def loadDotenv (environ : Store) (file : Option Store) (ov : Bool) : Store :=
  match file with
  | none => environ
  | some kvs =>
    kvs.foldl
      (fun env kv =>
        if ov || !(env.any (fun p => p.1 == kv.1)) then setKey env kv.1 kv.2 else env)
      environ

/-- The in-memory identity fields of the client set by `MoltbookClient.__init__`
(lines 12-14 of molt-client.py). -/
structure Client where
  api_key : Option String
  agent_id : Option String
  name : String
deriving DecidableEq

/-- Model of `MoltbookClient.__init__` at lines 6-14: `load_dotenv` the `.env` file into
the environment (no override), then read the three credential keys, the name
defaulting to "Unknown Agent".  Returns the client and the updated
environment.  Total: loading never raises. -/
def clientInit (file : Option Store) (environ : Store) : Client × Store :=
  let env := loadDotenv environ file false
  ({ api_key := getenv env "MOLTBOOK_API_KEY",
     agent_id := getenv env "MOLTBOOK_ID",
     name := (getenv env "MOLTBOOK_NAME").getD "Unknown Agent" }, env)

/-- Model of `_get_headers` at lines 16-22: empty header map when the key is falsy
(absent or empty string); otherwise the bearer and content-type headers. -/
def getHeaders (c : Client) : List (String × String) :=
  match c.api_key with
  | none => []
  | some s =>
    if s = "" then []
    else [("Authorization", "Bearer " ++ s), ("Content-Type", "application/json")]

/-- Model of `data.get("agent", ...)` at line 36: default empty dict; raises
`AttributeError` when the parsed body is not a dict. -/
def getAgent : Json → Except PyErr Json
  | .obj fields => .ok (dictGetD fields "agent" (.obj []))
  | _ => .error .attributeError

/-- The field mapping built at lines 46-52 of `register`, in insertion order;
each `agent_data.get(...)` defaults to Python `None`. -/
def mkMapping (fields : List (String × Json)) : List (String × Json) :=
  [("MOLTBOOK_ID", dictGetD fields "id" .null),
   ("MOLTBOOK_API_KEY", dictGetD fields "api_key" .null),
   ("MOLTBOOK_CLAIM_URL", dictGetD fields "claim_url" .null),
   ("MOLTBOOK_VERIFY_CODE", dictGetD fields "verification_code" .null),
   ("MOLTBOOK_NAME", dictGetD fields "name" .null)]

/-- The save loop at lines 54-56: for each entry in order, a truthy value is
written with `set_key`; `wf i` says whether the i-th `set_key` call raises
(a write failure), in which case the store at the failure point is returned
as the error payload. -/
def saveLoop (s : Store) (entries : List (String × Json)) (wf : Nat → Bool)
    (i : Nat) : Except Store Store :=
  match entries with
  | [] => .ok s
  | (k, v) :: rest =>
    if v.truthy then
      if wf i then .error s
      else saveLoop (setKey s k (pyStr v)) rest wf (i + 1)
    else saveLoop s rest wf i

/-- The effect of the save loop when every write succeeds. -/
def applyEntries (s : Store) : List (String × Json) → Store
  | [] => s
  | (k, v) :: rest => applyEntries (if v.truthy then setKey s k (pyStr v) else s) rest

/-- Model of `register` at lines 24-68.  Inputs: the current client, `.env` file
contents (`none` = file absent), process environment, the outcome of the
POST to the registration endpoint, and the write-failure schedule for the
`set_key` calls.  Output: the returned boolean and the resulting client,
file, and environment.  The enclosing `try/except` turns every raised error
into a `False` return that leaves the client and environment as they were;
the file reflects whatever writes happened before the failure. -/
def register (self : Client) (file : Option Store) (environ : Store)
    (resp : Except PyErr HttpResponse) (wf : Nat → Bool) :
    Bool × Client × Option Store × Store :=
  match resp with
  | .error _ => (false, self, file, environ)
  | .ok r =>
    match raiseForStatus r with
    | .error _ => (false, self, file, environ)
    | .ok _ =>
      match r.jsonBody with
      | .error _ => (false, self, file, environ)
      | .ok data =>
        match getAgent data with
        | .error _ => (false, self, file, environ)
        | .ok agentData =>
          if agentData.truthy then
            -- lines 42-43: ensure the .env file exists (created empty if absent)
            let store0 := file.getD []
            match agentData with
            | .obj fields =>
              match saveLoop store0 (mkMapping fields) wf 0 with
              | .error s1 => (false, self, some s1, environ)
              | .ok s1 =>
                -- lines 62-63: load_dotenv(override=True) then self.__init__()
                let env1 := loadDotenv environ (some s1) true
                let c := clientInit (some s1) env1
                (true, c.1, some s1, c.2)
            | _ =>
              -- a truthy non-dict agent value: `.get` raises AttributeError,
              -- caught after the file-exists step already ran
              (false, self, some store0, environ)
          else (false, self, file, environ)

/-- Model of `get_feed` at lines 71-75: the `posts` field of `res.json()` (default empty list) under a bare
`except` that returns `[]` on any raised error. -/
def get_feed (resp : Except PyErr HttpResponse) : Json :=
  match resp with
  | .error _ => .arr []
  | .ok r =>
    match r.jsonBody with
    | .error _ => .arr []
    | .ok (.obj fields) => dictGetD fields "posts" (.arr [])
    | .ok _ => .arr []

/-- Model of `semantic_search` at lines 96-98: `requests.get(...).json()` with no
`try/except` and no status check — a transport error or body-parse error
propagates to the caller; otherwise the parsed body is returned as is. -/
def semantic_search (resp : Except PyErr HttpResponse) : Except PyErr Json :=
  match resp with
  | .error e => .error e
  | .ok r => r.jsonBody

/-- The feed view at line 126: only the first ten posts are printed. -/
def displayedPosts (posts : List Json) : List Json := posts.take 10

/-- The selection guard at line 131: `0 < int(sel) <= len(posts)` over the
full post list. -/
def selAccepted (sel : Nat) (posts : List Json) : Bool :=
  decide (0 < sel) && decide (sel ≤ posts.length)

/-- The selected post at line 132: `posts[int(sel)-1]` over the full list. -/
def selTarget (posts : List Json) (sel : Nat) : Option Json := posts[sel - 1]?

/-! ### Basic store lemmas -/

/-- Unfolding `getenv` on a cons cell. -/
theorem getenv_cons (kv : String × String) (rest : Store) (k : String) :
    getenv (kv :: rest) k = if kv.1 = k then some kv.2 else getenv rest k := by
  by_cases h : kv.1 = k <;> simp [getenv, List.find?_cons, h]

/-- A key with a value is present in the environment. -/
theorem any_of_getenv_some (env : Store) (k v : String)
    (h : getenv env k = some v) : env.any (fun p => p.1 == k) = true := by
  induction env with
  | nil => simp [getenv] at h
  | cons kv rest ih =>
    rw [getenv_cons] at h
    by_cases hk : kv.1 = k
    · simp [List.any_cons, hk]
    · simp [hk] at h
      simp [List.any_cons, ih h]

theorem getenv_setKeyAll_ne (s : Store) (k v k' : String) (h : k' ≠ k) :
    getenv (setKeyAll s k v) k' = getenv s k' := by
  induction s with
  | nil => rfl
  | cons kv rest ih =>
    by_cases hk : kv.1 = k <;>
      simp [setKeyAll, hk, getenv_cons, ih, (by simpa using h.symm : ¬ k = k')]

theorem getenv_setKey_self (s : Store) (k v : String) :
    getenv (setKey s k v) k = some v := by
  induction s with
  | nil => simp [setKey, getenv_cons]
  | cons kv rest ih =>
    by_cases hk : kv.1 = k <;> simp [setKey, hk, getenv_cons, ih]

theorem getenv_setKey_ne (s : Store) (k v k' : String) (h : k' ≠ k) :
    getenv (setKey s k v) k' = getenv s k' := by
  induction s with
  | nil => simp [setKey, getenv_cons, (by simpa using h.symm : ¬ k = k')]
  | cons kv rest ih =>
    by_cases hk : kv.1 = k
    · simp [setKey, hk, getenv_cons, (by simpa using h.symm : ¬ k = k'),
        getenv_setKeyAll_ne rest k v k' h, hk ▸ (by simpa using h.symm : ¬ k = k')]
    · simp [setKey, hk, getenv_cons, ih]

/-- Every binding of key `k` in the store carries value `v`. -/
def allVal (s : Store) (k v : String) : Prop := ∀ p ∈ s, p.1 = k → p.2 = v

/-- A binding in `setKeyAll s k v` is either the rewritten one or an
untouched binding of a different key. -/
theorem mem_setKeyAll (s : Store) (k v : String) (p : String × String)
    (hp : p ∈ setKeyAll s k v) : p = (k, v) ∨ (p ∈ s ∧ p.1 ≠ k) := by
  induction s with
  | nil => simp [setKeyAll] at hp
  | cons kv rest ih =>
    simp only [setKeyAll, List.mem_cons] at hp
    rcases hp with hp | hp
    · by_cases h : kv.1 = k
      · rw [if_pos h] at hp
        exact Or.inl hp
      · rw [if_neg h] at hp
        exact Or.inr ⟨by rw [hp]; exact List.mem_cons_self kv rest, by rw [hp]; exact h⟩
    · rcases ih hp with h1 | ⟨h2, h3⟩
      · exact Or.inl h1
      · exact Or.inr ⟨List.mem_cons_of_mem _ h2, h3⟩

/-- A binding in `setKey s k v` is either the new one or an untouched binding
of a different key. -/
theorem mem_setKey (s : Store) (k v : String) (p : String × String)
    (hp : p ∈ setKey s k v) : p = (k, v) ∨ (p ∈ s ∧ p.1 ≠ k) := by
  induction s with
  | nil =>
    simp [setKey] at hp
    exact Or.inl (by rw [hp])
  | cons kv rest ih =>
    by_cases h : kv.1 = k
    · rw [setKey, if_pos h] at hp
      rcases List.mem_cons.mp hp with hp | hp
      · exact Or.inl hp
      · rcases mem_setKeyAll rest k v p hp with h1 | ⟨h2, h3⟩
        · exact Or.inl h1
        · exact Or.inr ⟨List.mem_cons_of_mem _ h2, h3⟩
    · rw [setKey, if_neg h] at hp
      rcases List.mem_cons.mp hp with hp | hp
      · exact Or.inr ⟨hp ▸ List.mem_cons_self kv rest, by rw [hp]; exact h⟩
      · rcases ih hp with h1 | ⟨h2, h3⟩
        · exact Or.inl h1
        · exact Or.inr ⟨List.mem_cons_of_mem _ h2, h3⟩

theorem allVal_setKey_self (s : Store) (k v : String) :
    allVal (setKey s k v) k v := by
  intro p hp hk
  rcases mem_setKey s k v p hp with h | ⟨_, hne⟩
  · rw [h]
  · exact absurd hk hne

theorem allVal_setKey_ne (s : Store) (k v k' v' : String) (h : k' ≠ k)
    (hs : allVal s k v) : allVal (setKey s k' v') k v := by
  intro p hp hk
  rcases mem_setKey s k' v' p hp with h1 | ⟨h2, _⟩
  · rw [h1] at hk
    exact absurd hk h
  · exact hs p h2 hk

/-! ### Lemmas about loading the environment file -/

theorem loadDotenv_cons (environ : Store) (kv : String × String) (kvs : Store)
    (ov : Bool) :
    loadDotenv environ (some (kv :: kvs)) ov =
      loadDotenv
        (if ov || !(environ.any fun p => p.1 == kv.1) then setKey environ kv.1 kv.2
         else environ)
        (some kvs) ov := by
  simp [loadDotenv]

/-- With `override=True`, a key already carrying the right value survives a
load of a file all of whose bindings of that key carry the same value. -/
theorem getenv_loadDotenv_keep (kvs : Store) (environ : Store) (k v : String)
    (h1 : getenv environ k = some v) (h2 : allVal kvs k v) (ov : Bool) :
    getenv (loadDotenv environ (some kvs) ov) k = some v := by
  induction kvs generalizing environ with
  | nil => simpa [loadDotenv] using h1
  | cons kv rest ih =>
    rw [loadDotenv_cons]
    have h2' : allVal rest k v := fun q hq => h2 q (List.mem_cons_of_mem _ hq)
    by_cases hcond : (ov || !(environ.any fun p => p.1 == kv.1)) = true
    · rw [if_pos hcond]
      by_cases hk : kv.1 = k
      · have hv : kv.2 = v := h2 kv (List.mem_cons_self _ _) hk
        refine ih _ ?_ h2'
        rw [hk, hv, getenv_setKey_self]
      · refine ih _ ?_ h2'
        rw [getenv_setKey_ne _ _ _ _ (fun hh => hk hh.symm)]
        exact h1
    · rw [if_neg hcond]
      exact ih _ h1 h2'

/-- With `override=True`, loading a file whose bindings of key `k` all carry
value `v` (and at least one exists) makes `getenv k` yield `v`. -/
theorem getenv_loadDotenv_true (kvs : Store) (environ : Store) (k v : String)
    (h1 : getenv kvs k = some v) (h2 : allVal kvs k v) :
    getenv (loadDotenv environ (some kvs) true) k = some v := by
  induction kvs generalizing environ with
  | nil => simp [getenv] at h1
  | cons kv rest ih =>
    rw [loadDotenv_cons]
    simp only [Bool.true_or, if_pos]
    have h2' : allVal rest k v := fun q hq => h2 q (List.mem_cons_of_mem _ hq)
    by_cases hk : kv.1 = k
    · have hv : kv.2 = v := h2 kv (List.mem_cons_self _ _) hk
      refine getenv_loadDotenv_keep rest _ k v ?_ h2' true
      rw [hk, hv, getenv_setKey_self]
    · rw [getenv_cons, if_neg hk] at h1
      exact ih _ h1 h2'

/-- Loading without override never changes a key that already has a value. -/
theorem getenv_loadDotenv_false (file : Option Store) (environ : Store)
    (k v : String) (h : getenv environ k = some v) :
    getenv (loadDotenv environ file false) k = some v := by
  match file with
  | none => simpa [loadDotenv] using h
  | some kvs =>
    induction kvs generalizing environ with
    | nil => simpa [loadDotenv] using h
    | cons kv rest ih =>
      rw [loadDotenv_cons]
      by_cases hk : kv.1 = k
      · have hany : environ.any (fun p => p.1 == kv.1) = true := by
          rw [hk]; exact any_of_getenv_some environ k v h
        simp only [hany, Bool.not_true, Bool.false_or, if_neg, Bool.false_eq_true,
          not_false_iff]
        exact ih environ h
      · by_cases hcond : (false || !(environ.any fun p => p.1 == kv.1)) = true
        · rw [if_pos hcond]
          refine ih _ ?_
          rw [getenv_setKey_ne _ _ _ _ (fun hh => hk hh.symm)]
          exact h
        · rw [if_neg hcond]
          exact ih environ h

/-! ### Lemmas about the save loop -/

theorem applyEntries_cons (s : Store) (k : String) (v : Json)
    (rest : List (String × Json)) :
    applyEntries s ((k, v) :: rest) =
      applyEntries (if v.truthy then setKey s k (pyStr v) else s) rest := rfl

/-- When every write succeeds, the save loop is the pure fold of
conditional `set_key`s. -/
theorem saveLoop_all_ok (entries : List (String × Json)) (s : Store) (i : Nat) :
    saveLoop s entries (fun _ => false) i = Except.ok (applyEntries s entries) := by
  induction entries generalizing s i with
  | nil => rfl
  | cons e rest ih =>
    obtain ⟨k, v⟩ := e
    rw [saveLoop, applyEntries_cons]
    by_cases ht : v.truthy = true
    · rw [if_pos ht, if_neg (by simp), if_pos ht]
      exact ih _ _
    · rw [if_neg ht, if_neg ht]
      exact ih _ _

/-- Entries none of which bind key `k` leave `getenv k` unchanged. -/
theorem getenv_applyEntries_ne (entries : List (String × Json)) (s : Store)
    (k : String) (h : ∀ p ∈ entries, p.1 ≠ k) :
    getenv (applyEntries s entries) k = getenv s k := by
  induction entries generalizing s with
  | nil => rfl
  | cons e rest ih =>
    obtain ⟨k1, v⟩ := e
    rw [applyEntries_cons]
    have h1 : k1 ≠ k := h (k1, v) (List.mem_cons_self _ _)
    have h' : ∀ p ∈ rest, p.1 ≠ k := fun p hp => h p (List.mem_cons_of_mem _ hp)
    rw [ih _ h']
    by_cases ht : v.truthy = true
    · rw [if_pos ht, getenv_setKey_ne _ _ _ _ (fun hh => h1 hh.symm)]
    · rw [if_neg ht]

/-- Entries none of which bind key `k` preserve `allVal k`. -/
theorem allVal_applyEntries (entries : List (String × Json)) (s : Store)
    (k v : String) (h1 : allVal s k v) (h2 : ∀ p ∈ entries, p.1 ≠ k) :
    allVal (applyEntries s entries) k v := by
  induction entries generalizing s with
  | nil => exact h1
  | cons e rest ih =>
    obtain ⟨k1, jv⟩ := e
    rw [applyEntries_cons]
    have hk1 : k1 ≠ k := h2 (k1, jv) (List.mem_cons_self _ _)
    have h2' : ∀ p ∈ rest, p.1 ≠ k := fun p hp => h2 p (List.mem_cons_of_mem _ hp)
    refine ih _ ?_ h2'
    by_cases ht : jv.truthy = true
    · rw [if_pos ht]
      exact allVal_setKey_ne s k v k1 (pyStr jv) hk1 h1
    · rw [if_neg ht]
      exact h1

/-! ### Unfolding register on its main paths -/

/-- The success path of `register`: HTTP success, parsed body, non-empty
agent dict, save loop completed. -/
theorem register_ok_eq (self : Client) (file : Option Store) (environ : Store)
    (r : HttpResponse) (wf : Nat → Bool) (data : Json)
    (fields : List (String × Json)) (s1 : Store)
    (hst : r.status < 400) (hbody : r.jsonBody = Except.ok data)
    (hagent : getAgent data = Except.ok (Json.obj fields)) (hfz : fields ≠ [])
    (hsave : saveLoop (file.getD []) (mkMapping fields) wf 0 = Except.ok s1) :
    register self file environ (Except.ok r) wf =
      (true, (clientInit (some s1) (loadDotenv environ (some s1) true)).1, some s1,
        (clientInit (some s1) (loadDotenv environ (some s1) true)).2) := by
  have htr : (Json.obj fields).truthy = true := by
    simp [Json.truthy, List.isEmpty_eq_true, hfz]
  simp only [register, raiseForStatus, if_neg (by omega : ¬ (400 ≤ r.status ∧ r.status < 600)), hbody,
    hagent, htr, if_pos, hsave]

theorem applyEntries_append (s : Store) (l1 l2 : List (String × Json)) :
    applyEntries s (l1 ++ l2) = applyEntries (applyEntries s l1) l2 := by
  induction l1 generalizing s with
  | nil => rfl
  | cons e rest ih =>
    obtain ⟨k, v⟩ := e
    rw [List.cons_append, applyEntries_cons, applyEntries_cons, ih]

/-- The value persisted for a truthy entry, when no later entry rebinds its
key. -/
theorem getenv_applyEntries_true (pre post : List (String × Json)) (s : Store)
    (k : String) (v : Json) (hpost : ∀ q ∈ post, q.1 ≠ k)
    (ht : v.truthy = true) :
    getenv (applyEntries s (pre ++ (k, v) :: post)) k = some (pyStr v) := by
  rw [applyEntries_append, applyEntries_cons, if_pos ht,
    getenv_applyEntries_ne post _ _ hpost, getenv_setKey_self]

/-- A falsy entry is skipped: when no other entry touches its key, the store
is unchanged at that key. -/
theorem getenv_applyEntries_false (pre post : List (String × Json)) (s : Store)
    (k : String) (v : Json) (hpre : ∀ q ∈ pre, q.1 ≠ k)
    (hpost : ∀ q ∈ post, q.1 ≠ k) (ht : v.truthy = false) :
    getenv (applyEntries s (pre ++ (k, v) :: post)) k = getenv s k := by
  rw [applyEntries_append, applyEntries_cons, if_neg (by simp [ht]),
    getenv_applyEntries_ne post _ _ hpost, getenv_applyEntries_ne pre _ _ hpre]

/-- After a truthy entry is written (and no later entry rebinds its key),
every binding of that key carries the written value. -/
theorem allVal_applyEntries_true (pre post : List (String × Json)) (s : Store)
    (k : String) (v : Json) (hpost : ∀ q ∈ post, q.1 ≠ k)
    (ht : v.truthy = true) :
    allVal (applyEntries s (pre ++ (k, v) :: post)) k (pyStr v) := by
  rw [applyEntries_append, applyEntries_cons, if_pos ht]
  exact allVal_applyEntries post _ _ _ (allVal_setKey_self _ _ _) hpost

/-- Header construction for a present, non-empty key. -/
theorem getHeaders_of_key (c : Client) (s : String) (h : c.api_key = some s)
    (hs : s ≠ "") :
    getHeaders c = [("Authorization", "Bearer " ++ s),
      ("Content-Type", "application/json")] := by
  obtain ⟨ak, aid, nm⟩ := c
  cases ak with
  | none => cases h
  | some t =>
    injection h with h
    subst h
    simp [getHeaders, hs]

/-! ### Failure predicates used by the claims -/

/-- A `get_feed` failure: transport error, body-parse error, or a body that is
not a dict or lacks a `posts` field (the bare `except` also covers the
AttributeError of `.get` on a non-dict). -/
def feedFailure (resp : Except PyErr HttpResponse) : Prop :=
  match resp with
  | .error _ => True
  | .ok r =>
    match r.jsonBody with
    | .error _ => True
    | .ok (.obj fields) => fields.find? (fun p => p.1 == "posts") = none
    | .ok _ => True

/-- A registration attempt that fails before the per-key save loop runs:
transport error, 4xx/5xx status, body-parse error, or an absent/empty (or
non-dict) `agent` record. -/
def preSaveFailure (resp : Except PyErr HttpResponse) : Prop :=
  match resp with
  | .error _ => True
  | .ok r =>
    (400 ≤ r.status ∧ r.status < 600)
      ∨ (∀ data, r.jsonBody = Except.ok data →
          ∀ a, getAgent data = Except.ok a → a.truthy = false)

/-! ### Claims -/

/-- C1: for every registration response whose body lacks an `agent`
sub-record (or whose `agent` record is empty — Python-falsy), `register`
returns the failure outcome `false` and writes zero new keys: the store file,
the client, and the environment come back exactly as they were. -/
theorem register_no_agent_fails_no_writes (self : Client) (file : Option Store)
    (environ : Store) (wf : Nat → Bool) (r : HttpResponse) (data : Json)
    (hst : r.status < 400) (hbody : r.jsonBody = Except.ok data)
    (hagent : ∀ a, getAgent data = Except.ok a → a.truthy = false) :
    register self file environ (Except.ok r) wf = (false, self, file, environ) := by
  simp only [register, raiseForStatus, if_neg (by omega : ¬ (400 ≤ r.status ∧ r.status < 600)), hbody]
  cases hg : getAgent data with
  | error e => rfl
  | ok a => simp [hagent a hg]

/-- C1 witness: a 200 response whose body has no `agent` field. -/
theorem register_no_agent_fails_no_writes_witness :
    register ⟨none, none, "Unknown Agent"⟩ none []
      (Except.ok ⟨200, Except.ok (Json.obj [("status", Json.str "ok")])⟩)
      (fun _ => false)
      = (false, ⟨none, none, "Unknown Agent"⟩, none, []) :=
  register_no_agent_fails_no_writes _ _ _ _ _ _ (by decide) rfl
    (fun a ha => by
      rw [show getAgent (Json.obj [("status", Json.str "ok")]) =
        Except.ok (Json.obj []) from rfl] at ha
      injection ha with h
      rw [← h]
      rfl)

/-- C3 counterexample: on a transport error, `semantic_search` propagates the
raised exception instead of returning an empty result — the call has no
`try/except`, so the claimed degrade-to-empty behaviour does not exist. -/
theorem semantic_search_propagates_error_cex :
    semantic_search (Except.error (PyErr.network "timeout")) =
        Except.error (PyErr.network "timeout")
      ∧ (semantic_search (Except.error (PyErr.network "timeout"))).isOk = false :=
  ⟨rfl, rfl⟩

/-- C3 amended: `semantic_search` propagates every transport and body-parse
failure unchanged to the caller; on a received response it returns the parsed
body with no status check and no degrade-to-empty. -/
theorem semantic_search_propagates_failures :
    (∀ e : PyErr, semantic_search (Except.error e) = Except.error e)
      ∧ (∀ r : HttpResponse, semantic_search (Except.ok r) = r.jsonBody) :=
  ⟨fun _ => rfl, fun _ => rfl⟩

/-- C4: on every failure — transport error, malformed JSON, or a JSON body
without a `posts` field — `get_feed` returns the empty list.  It never raises:
it is a total function into `Json`. -/
theorem get_feed_degrades_to_empty (resp : Except PyErr HttpResponse)
    (h : feedFailure resp) : get_feed resp = Json.arr [] := by
  cases resp with
  | error e => rfl
  | ok r =>
    rw [get_feed]
    simp only [feedFailure] at h
    cases hb : r.jsonBody with
    | error e => rfl
    | ok j =>
      rw [hb] at h
      cases j with
      | obj fields => simp [dictGetD, h]
      | null => rfl
      | bool b => rfl
      | num n => rfl
      | str s => rfl
      | arr xs => rfl

/-- C4 witness: a simulated timeout yields the empty list. -/
theorem get_feed_degrades_to_empty_witness :
    get_feed (Except.error (PyErr.network "timeout")) = Json.arr [] :=
  get_feed_degrades_to_empty (Except.error (PyErr.network "timeout")) trivial

/-- C6: the header map carries an Authorization Bearer header iff the stored
API key is present and non-empty; with no key (or an empty one) the header
map is completely empty — no placeholder values. -/
theorem headers_bearer_iff_api_key (c : Client) :
    ((∃ v, ("Authorization", v) ∈ getHeaders c) ↔ ∃ s, c.api_key = some s ∧ s ≠ "")
      ∧ ((c.api_key = none ∨ c.api_key = some "") → getHeaders c = [])
      ∧ (∀ s, c.api_key = some s → s ≠ "" →
          getHeaders c = [("Authorization", "Bearer " ++ s),
            ("Content-Type", "application/json")]) := by
  obtain ⟨ak, aid, nm⟩ := c
  cases ak with
  | none => simp [getHeaders]
  | some s =>
    by_cases hs : s = ""
    · subst hs
      simp [getHeaders]
    · simp [getHeaders, hs]

/-- C6 witness: a client with key "k" gets exactly the bearer and
content-type headers. -/
theorem headers_bearer_iff_api_key_witness :
    getHeaders ⟨some "k", none, "n"⟩ =
      [("Authorization", "Bearer " ++ "k"), ("Content-Type", "application/json")] :=
  (headers_bearer_iff_api_key ⟨some "k", none, "n"⟩).2.2 "k" rfl (by decide)

/-- C8 counterexample: with no credential file and no API key anywhere, an
exogenous MOLTBOOK_ID in the process environment still becomes the in-memory
agent_id — the loaded identity is not absent/empty as claimed. -/
theorem clientInit_exogenous_agent_id_cex :
    getenv [("MOLTBOOK_ID", "zzz")] "MOLTBOOK_API_KEY" = none
      ∧ (clientInit none [("MOLTBOOK_ID", "zzz")]).1.agent_id = some "zzz" :=
  ⟨rfl, rfl⟩

/-- C8 amended: when no credential file exists and the process environment
sets none of MOLTBOOK_API_KEY / MOLTBOOK_ID / MOLTBOOK_NAME, initialisation
yields the absent identity with the default display name, leaves the
environment untouched, and never errors (it is a total function). -/
theorem clientInit_fresh_state_absent_identity (environ : Store)
    (hk : getenv environ "MOLTBOOK_API_KEY" = none)
    (hi : getenv environ "MOLTBOOK_ID" = none)
    (hn : getenv environ "MOLTBOOK_NAME" = none) :
    clientInit none environ =
      ({ api_key := none, agent_id := none, name := "Unknown Agent" }, environ) := by
  simp [clientInit, loadDotenv, hk, hi, hn]

/-- C8 witness: a fresh first-run state with an unrelated variable. -/
theorem clientInit_fresh_state_absent_identity_witness :
    clientInit none [("HOME", "/root")] =
      ({ api_key := none, agent_id := none, name := "Unknown Agent" },
        [("HOME", "/root")]) :=
  clientInit_fresh_state_absent_identity [("HOME", "/root")] rfl rfl rfl

/-- C9: whenever the environment consulted by `os.getenv` has no
MOLTBOOK_NAME key, the in-memory display name is the literal default
"Unknown Agent" (shown in the menu banner), not an empty or absent value. -/
theorem clientInit_name_defaults_unknown_agent (file : Option Store)
    (environ : Store)
    (h : getenv (loadDotenv environ file false) "MOLTBOOK_NAME" = none) :
    (clientInit file environ).1.name = "Unknown Agent" := by
  simp [clientInit, h]

/-- C9 witness: empty environment and no file. -/
theorem clientInit_name_defaults_unknown_agent_witness :
    (clientInit none []).1.name = "Unknown Agent" :=
  clientInit_name_defaults_unknown_agent none [] rfl

/-- C10: the feed view prints only the first ten posts, yet the reply/vote
guard accepts any index i with 0 < i ≤ n over the full list and targets
posts[i-1]; for i beyond ten the accepted target comes from the dropped
(never displayed) tail of the list. -/
theorem feed_selection_beyond_display (posts : List Json) (sel : Nat)
    (h10 : 10 < sel) (hlen : sel ≤ posts.length) :
    selAccepted sel posts = true
      ∧ displayedPosts posts = posts.take 10
      ∧ (displayedPosts posts).length = 10
      ∧ selTarget posts sel = (posts.drop 10)[sel - 11]?
      ∧ (selTarget posts sel).isSome = true := by
  refine ⟨?_, rfl, ?_, ?_, ?_⟩
  · simp only [selAccepted, Bool.and_eq_true, decide_eq_true_eq]
    omega
  · simp only [displayedPosts, List.length_take]
    omega
  · rw [selTarget, List.getElem?_drop]
    congr 1
    omega
  · rw [selTarget, List.getElem?_eq_getElem (by omega : sel - 1 < posts.length)]
    rfl

/-- C10 witness: twelve posts, selection 11 — accepted, and the target is the
first element of the undisplayed tail. -/
theorem feed_selection_beyond_display_witness :
    selAccepted 11 (List.replicate 12 Json.null) = true
      ∧ displayedPosts (List.replicate 12 Json.null) =
          (List.replicate 12 Json.null).take 10
      ∧ (displayedPosts (List.replicate 12 Json.null)).length = 10
      ∧ selTarget (List.replicate 12 Json.null) 11 =
          ((List.replicate 12 Json.null).drop 10)[(0 : Nat)]?
      ∧ (selTarget (List.replicate 12 Json.null) 11).isSome = true :=
  feed_selection_beyond_display (List.replicate 12 Json.null) 11 (by omega)
    (by simp)

/-- C7 counterexample: with a valid agent record carrying id and api_key, a
write failure on the second `set_key` call makes `register` return `false`
with MOLTBOOK_ID already persisted — the key-value contents of the store are NOT
unchanged from before the call. -/
theorem register_partial_write_cex :
    register ⟨none, none, "Unknown Agent"⟩ (some []) []
        (Except.ok ⟨200, Except.ok (Json.obj
          [("agent", Json.obj [("id", Json.str "A1"), ("api_key", Json.str "K1")])])⟩)
        (fun n => n == 1)
      = (false, ⟨none, none, "Unknown Agent"⟩, some [("MOLTBOOK_ID", "A1")], [])
    ∧ [("MOLTBOOK_ID", "A1")] ≠ ([] : Store) :=
  ⟨rfl, by decide⟩

/-- C7 amended: `register` returns the failure outcome `false` on every
failure; for failures that occur before the per-key save loop (transport
error, 4xx/5xx status, body-parse failure, absent/empty agent) the
key-value contents are unchanged — but a write failure partway through the
save loop leaves the keys already written persisted. -/
theorem register_failure_persistence :
    (∀ (self : Client) (file : Option Store) (environ : Store) (wf : Nat → Bool)
        (resp : Except PyErr HttpResponse), preSaveFailure resp →
        register self file environ resp wf = (false, self, file, environ))
      ∧ (∀ (self : Client) (file : Option Store) (environ : Store)
          (r : HttpResponse) (data : Json) (fields : List (String × Json))
          (idv keyv : String),
          r.status < 400 → r.jsonBody = Except.ok data →
          getAgent data = Except.ok (Json.obj fields) →
          dictGetD fields "id" Json.null = Json.str idv → idv ≠ "" →
          dictGetD fields "api_key" Json.null = Json.str keyv → keyv ≠ "" →
          register self file environ (Except.ok r) (fun n => n == 1) =
            (false, self, some (setKey (file.getD []) "MOLTBOOK_ID" idv),
              environ)) := by
  constructor
  · intro self file environ wf resp h
    cases resp with
    | error e => rfl
    | ok r =>
      simp only [preSaveFailure] at h
      by_cases hst : 400 ≤ r.status ∧ r.status < 600
      · simp only [register, raiseForStatus, if_pos hst]
      · rcases h with h | h
        · exact absurd h hst
        · cases hb : r.jsonBody with
          | error e => simp only [register, raiseForStatus, if_neg hst, hb]
          | ok data =>
            cases hg : getAgent data with
            | error e => simp only [register, raiseForStatus, if_neg hst, hb, hg]
            | ok a =>
              simp only [register, raiseForStatus, if_neg hst, hb, hg,
                h data hb a hg, Bool.false_eq_true, if_false]
  · intro self file environ r data fields idv keyv hst hbody hagent hid hidne hkey
      hkeyne
    have ht1 : (Json.str idv).truthy = true := by
      simp [Json.truthy]
      exact hidne
    have ht2 : (Json.str keyv).truthy = true := by
      simp [Json.truthy]
      exact hkeyne
    have hfz : fields ≠ [] := by
      intro hf
      rw [hf] at hid
      simp [dictGetD] at hid
    have htr : (Json.obj fields).truthy = true := by
      simp [Json.truthy, List.isEmpty_eq_true, hfz]
    have hsave : saveLoop (file.getD []) (mkMapping fields) (fun n => n == 1) 0 =
        Except.error (setKey (file.getD []) "MOLTBOOK_ID" idv) := by
      rw [mkMapping, hid, hkey, saveLoop, if_pos ht1,
        if_neg (by decide : ¬ ((0 == 1 : Bool) = true))]
      rw [show pyStr (Json.str idv) = idv from rfl]
      rw [saveLoop, if_pos ht2]
      simp
    simp only [register, raiseForStatus, if_neg (by omega : ¬ (400 ≤ r.status ∧ r.status < 600)),
      hbody, hagent, htr, if_pos, hsave]

/-- C7 amended witness: a concrete transport failure leaves everything
unchanged. -/
theorem register_failure_persistence_witness :
    register ⟨none, none, "Unknown Agent"⟩ (some [("A", "1")]) [("B", "2")]
        (Except.error (PyErr.network "unreachable")) (fun _ => false)
      = (false, ⟨none, none, "Unknown Agent"⟩, some [("A", "1")], [("B", "2")]) :=
  register_failure_persistence.1 ⟨none, none, "Unknown Agent"⟩ (some [("A", "1")])
    [("B", "2")] (fun _ => false) (Except.error (PyErr.network "unreachable"))
    trivial

/-- C2: a registration response with a valid `agent` record carrying
non-empty id, api_key, and claim_url succeeds: the store written is exactly
the post-save-loop store, it carries those three fields (name too when
present and non-empty), and the reloaded live identity — used by every
subsequent header construction — carries the new credentials. -/
theorem register_success_persists_and_reloads
    (self : Client) (file : Option Store) (environ : Store) (r : HttpResponse)
    (data : Json) (fields : List (String × Json)) (idv keyv curlv : String)
    (hst : r.status < 400) (hbody : r.jsonBody = Except.ok data)
    (hagent : getAgent data = Except.ok (Json.obj fields))
    (hid : dictGetD fields "id" Json.null = Json.str idv) (hidne : idv ≠ "")
    (hkey : dictGetD fields "api_key" Json.null = Json.str keyv)
    (hkeyne : keyv ≠ "")
    (hcurl : dictGetD fields "claim_url" Json.null = Json.str curlv)
    (hcurlne : curlv ≠ "") :
    ∃ c1 env2,
      register self file environ (Except.ok r) (fun _ => false) =
          (true, c1, some (applyEntries (file.getD []) (mkMapping fields)), env2)
        ∧ getenv (applyEntries (file.getD []) (mkMapping fields)) "MOLTBOOK_ID"
            = some idv
        ∧ getenv (applyEntries (file.getD []) (mkMapping fields))
            "MOLTBOOK_API_KEY" = some keyv
        ∧ getenv (applyEntries (file.getD []) (mkMapping fields))
            "MOLTBOOK_CLAIM_URL" = some curlv
        ∧ c1.api_key = some keyv
        ∧ c1.agent_id = some idv
        ∧ (∀ namev : String, dictGetD fields "name" Json.null = Json.str namev →
            namev ≠ "" → c1.name = namev)
        ∧ getHeaders c1 = [("Authorization", "Bearer " ++ keyv),
            ("Content-Type", "application/json")] := by
  have hfz : fields ≠ [] := by
    intro hf
    rw [hf] at hid
    simp [dictGetD] at hid
  have ht1 : (Json.str idv).truthy = true := by
    simp [Json.truthy]
    exact hidne
  have ht2 : (Json.str keyv).truthy = true := by
    simp [Json.truthy]
    exact hkeyne
  have ht3 : (Json.str curlv).truthy = true := by
    simp [Json.truthy]
    exact hcurlne
  have hm : mkMapping fields =
      [("MOLTBOOK_ID", Json.str idv), ("MOLTBOOK_API_KEY", Json.str keyv),
       ("MOLTBOOK_CLAIM_URL", Json.str curlv),
       ("MOLTBOOK_VERIFY_CODE", dictGetD fields "verification_code" Json.null),
       ("MOLTBOOK_NAME", dictGetD fields "name" Json.null)] := by
    rw [mkMapping, hid, hkey, hcurl]
  set store0 := file.getD [] with hstore0
  set s1 := applyEntries store0 (mkMapping fields) with hs1
  have hgid : getenv s1 "MOLTBOOK_ID" = some idv := by
    rw [hs1, hm]
    exact getenv_applyEntries_true []
      [("MOLTBOOK_API_KEY", Json.str keyv), ("MOLTBOOK_CLAIM_URL", Json.str curlv),
       ("MOLTBOOK_VERIFY_CODE", dictGetD fields "verification_code" Json.null),
       ("MOLTBOOK_NAME", dictGetD fields "name" Json.null)]
      store0 "MOLTBOOK_ID" (Json.str idv)
      (by intro q hq; simp at hq; rcases hq with rfl | rfl | rfl | rfl <;> simp)
      ht1
  have havid : allVal s1 "MOLTBOOK_ID" idv := by
    rw [hs1, hm]
    exact allVal_applyEntries_true []
      [("MOLTBOOK_API_KEY", Json.str keyv), ("MOLTBOOK_CLAIM_URL", Json.str curlv),
       ("MOLTBOOK_VERIFY_CODE", dictGetD fields "verification_code" Json.null),
       ("MOLTBOOK_NAME", dictGetD fields "name" Json.null)]
      store0 "MOLTBOOK_ID" (Json.str idv)
      (by intro q hq; simp at hq; rcases hq with rfl | rfl | rfl | rfl <;> simp)
      ht1
  have hgkey : getenv s1 "MOLTBOOK_API_KEY" = some keyv := by
    rw [hs1, hm]
    exact getenv_applyEntries_true [("MOLTBOOK_ID", Json.str idv)]
      [("MOLTBOOK_CLAIM_URL", Json.str curlv),
       ("MOLTBOOK_VERIFY_CODE", dictGetD fields "verification_code" Json.null),
       ("MOLTBOOK_NAME", dictGetD fields "name" Json.null)]
      store0 "MOLTBOOK_API_KEY" (Json.str keyv)
      (by intro q hq; simp at hq; rcases hq with rfl | rfl | rfl <;> simp)
      ht2
  have havkey : allVal s1 "MOLTBOOK_API_KEY" keyv := by
    rw [hs1, hm]
    exact allVal_applyEntries_true [("MOLTBOOK_ID", Json.str idv)]
      [("MOLTBOOK_CLAIM_URL", Json.str curlv),
       ("MOLTBOOK_VERIFY_CODE", dictGetD fields "verification_code" Json.null),
       ("MOLTBOOK_NAME", dictGetD fields "name" Json.null)]
      store0 "MOLTBOOK_API_KEY" (Json.str keyv)
      (by intro q hq; simp at hq; rcases hq with rfl | rfl | rfl <;> simp)
      ht2
  have hgcurl : getenv s1 "MOLTBOOK_CLAIM_URL" = some curlv := by
    rw [hs1, hm]
    exact getenv_applyEntries_true
      [("MOLTBOOK_ID", Json.str idv), ("MOLTBOOK_API_KEY", Json.str keyv)]
      [("MOLTBOOK_VERIFY_CODE", dictGetD fields "verification_code" Json.null),
       ("MOLTBOOK_NAME", dictGetD fields "name" Json.null)]
      store0 "MOLTBOOK_CLAIM_URL" (Json.str curlv)
      (by intro q hq; simp at hq; rcases hq with rfl | rfl <;> simp)
      ht3
  set env1 := loadDotenv environ (some s1) true with henv1
  have henv1k : getenv env1 "MOLTBOOK_API_KEY" = some keyv :=
    getenv_loadDotenv_true s1 environ _ _ hgkey havkey
  have henv1i : getenv env1 "MOLTBOOK_ID" = some idv :=
    getenv_loadDotenv_true s1 environ _ _ hgid havid
  have henv2k : getenv (loadDotenv env1 (some s1) false) "MOLTBOOK_API_KEY"
      = some keyv := getenv_loadDotenv_false (some s1) env1 _ _ henv1k
  have henv2i : getenv (loadDotenv env1 (some s1) false) "MOLTBOOK_ID"
      = some idv := getenv_loadDotenv_false (some s1) env1 _ _ henv1i
  have hc1k : (clientInit (some s1) env1).1.api_key = some keyv := henv2k
  have hc1i : (clientInit (some s1) env1).1.agent_id = some idv := henv2i
  refine ⟨(clientInit (some s1) env1).1, (clientInit (some s1) env1).2,
    ?_, hgid, hgkey, hgcurl, hc1k, hc1i, ?_, ?_⟩
  · exact register_ok_eq self file environ r _ data fields s1 hst hbody hagent hfz
      (saveLoop_all_ok _ _ _)
  · intro namev hnam hnamne
    have htn : (Json.str namev).truthy = true := by
      simp [Json.truthy]
      exact hnamne
    have hgn : getenv s1 "MOLTBOOK_NAME" = some namev := by
      rw [hs1, hm, hnam]
      exact getenv_applyEntries_true
        [("MOLTBOOK_ID", Json.str idv), ("MOLTBOOK_API_KEY", Json.str keyv),
         ("MOLTBOOK_CLAIM_URL", Json.str curlv),
         ("MOLTBOOK_VERIFY_CODE", dictGetD fields "verification_code" Json.null)]
        [] store0 "MOLTBOOK_NAME" (Json.str namev)
        (by intro q hq; simp at hq)
        htn
    have havn : allVal s1 "MOLTBOOK_NAME" namev := by
      rw [hs1, hm, hnam]
      exact allVal_applyEntries_true
        [("MOLTBOOK_ID", Json.str idv), ("MOLTBOOK_API_KEY", Json.str keyv),
         ("MOLTBOOK_CLAIM_URL", Json.str curlv),
         ("MOLTBOOK_VERIFY_CODE", dictGetD fields "verification_code" Json.null)]
        [] store0 "MOLTBOOK_NAME" (Json.str namev)
        (by intro q hq; simp at hq)
        htn
    have h1n : getenv env1 "MOLTBOOK_NAME" = some namev :=
      getenv_loadDotenv_true s1 environ _ _ hgn havn
    have h2n : getenv (loadDotenv env1 (some s1) false) "MOLTBOOK_NAME"
        = some namev := getenv_loadDotenv_false (some s1) env1 _ _ h1n
    show (getenv (loadDotenv env1 (some s1) false) "MOLTBOOK_NAME").getD
      "Unknown Agent" = namev
    rw [h2n]
    rfl
  · exact getHeaders_of_key _ keyv hc1k hkeyne

/-- C2 witness: a fresh first run registering successfully with id, api_key,
and claim_url; the evaluated store and reloaded identity are shown
explicitly. -/
theorem register_success_persists_and_reloads_witness :
    ∃ c1 env2,
      register ⟨none, none, "Unknown Agent"⟩ none []
          (Except.ok ⟨200, Except.ok (Json.obj [("agent", Json.obj
            [("id", Json.str "A1"), ("api_key", Json.str "K1"),
             ("claim_url", Json.str "http://c")])])⟩)
          (fun _ => false) =
          (true, c1,
            some [("MOLTBOOK_ID", "A1"), ("MOLTBOOK_API_KEY", "K1"),
              ("MOLTBOOK_CLAIM_URL", "http://c")], env2)
        ∧ getenv [("MOLTBOOK_ID", "A1"), ("MOLTBOOK_API_KEY", "K1"),
            ("MOLTBOOK_CLAIM_URL", "http://c")] "MOLTBOOK_ID" = some "A1"
        ∧ getenv [("MOLTBOOK_ID", "A1"), ("MOLTBOOK_API_KEY", "K1"),
            ("MOLTBOOK_CLAIM_URL", "http://c")] "MOLTBOOK_API_KEY" = some "K1"
        ∧ getenv [("MOLTBOOK_ID", "A1"), ("MOLTBOOK_API_KEY", "K1"),
            ("MOLTBOOK_CLAIM_URL", "http://c")] "MOLTBOOK_CLAIM_URL"
            = some "http://c"
        ∧ c1.api_key = some "K1"
        ∧ c1.agent_id = some "A1"
        ∧ (∀ namev : String,
            dictGetD [("id", Json.str "A1"), ("api_key", Json.str "K1"),
              ("claim_url", Json.str "http://c")] "name" Json.null
              = Json.str namev → namev ≠ "" → c1.name = namev)
        ∧ getHeaders c1 = [("Authorization", "Bearer " ++ "K1"),
            ("Content-Type", "application/json")] :=
  register_success_persists_and_reloads ⟨none, none, "Unknown Agent"⟩ none []
    ⟨200, Except.ok (Json.obj [("agent", Json.obj
      [("id", Json.str "A1"), ("api_key", Json.str "K1"),
       ("claim_url", Json.str "http://c")])])⟩
    (Json.obj [("agent", Json.obj
      [("id", Json.str "A1"), ("api_key", Json.str "K1"),
       ("claim_url", Json.str "http://c")])])
    [("id", Json.str "A1"), ("api_key", Json.str "K1"),
     ("claim_url", Json.str "http://c")]
    "A1" "K1" "http://c"
    (by decide) rfl rfl rfl (by decide) rfl (by decide) rfl (by decide)

/-- C5: on a successful registration the persisted update is exactly the
truthy entries of the field mapping: every present, non-empty (truthy) value
is written as its Python string rendering; an entry whose source value is
missing, null, or otherwise falsy is omitted — its key (so in particular no
"None" string) is left exactly as it was in the store — and keys outside the
mapping are untouched. -/
theorem register_persists_exactly_truthy_fields
    (self : Client) (file : Option Store) (environ : Store) (r : HttpResponse)
    (data : Json) (fields : List (String × Json))
    (hst : r.status < 400) (hbody : r.jsonBody = Except.ok data)
    (hagent : getAgent data = Except.ok (Json.obj fields)) (hfz : fields ≠ []) :
    ∃ c1 env2,
      register self file environ (Except.ok r) (fun _ => false) =
          (true, c1, some (applyEntries (file.getD []) (mkMapping fields)), env2)
        ∧ (∀ p ∈ mkMapping fields, p.2.truthy = true →
            getenv (applyEntries (file.getD []) (mkMapping fields)) p.1
              = some (pyStr p.2))
        ∧ (∀ p ∈ mkMapping fields, p.2.truthy = false →
            getenv (applyEntries (file.getD []) (mkMapping fields)) p.1
              = getenv (file.getD []) p.1)
        ∧ (∀ k, (∀ p ∈ mkMapping fields, p.1 ≠ k) →
            getenv (applyEntries (file.getD []) (mkMapping fields)) k
              = getenv (file.getD []) k) := by
  refine ⟨_, _,
    register_ok_eq self file environ r _ data fields _ hst hbody hagent hfz
      (saveLoop_all_ok _ _ _), ?_, ?_, ?_⟩
  · intro p hp ht
    rw [mkMapping] at hp
    simp only [List.mem_cons, List.not_mem_nil, or_false] at hp
    rcases hp with rfl | rfl | rfl | rfl | rfl
    · exact getenv_applyEntries_true []
        [("MOLTBOOK_API_KEY", dictGetD fields "api_key" Json.null),
         ("MOLTBOOK_CLAIM_URL", dictGetD fields "claim_url" Json.null),
         ("MOLTBOOK_VERIFY_CODE", dictGetD fields "verification_code" Json.null),
         ("MOLTBOOK_NAME", dictGetD fields "name" Json.null)] _ _ _
        (by intro q hq; simp at hq; rcases hq with rfl | rfl | rfl | rfl <;> simp)
        ht
    · exact getenv_applyEntries_true
        [("MOLTBOOK_ID", dictGetD fields "id" Json.null)]
        [("MOLTBOOK_CLAIM_URL", dictGetD fields "claim_url" Json.null),
         ("MOLTBOOK_VERIFY_CODE", dictGetD fields "verification_code" Json.null),
         ("MOLTBOOK_NAME", dictGetD fields "name" Json.null)] _ _ _
        (by intro q hq; simp at hq; rcases hq with rfl | rfl | rfl <;> simp)
        ht
    · exact getenv_applyEntries_true
        [("MOLTBOOK_ID", dictGetD fields "id" Json.null),
         ("MOLTBOOK_API_KEY", dictGetD fields "api_key" Json.null)]
        [("MOLTBOOK_VERIFY_CODE", dictGetD fields "verification_code" Json.null),
         ("MOLTBOOK_NAME", dictGetD fields "name" Json.null)] _ _ _
        (by intro q hq; simp at hq; rcases hq with rfl | rfl <;> simp)
        ht
    · exact getenv_applyEntries_true
        [("MOLTBOOK_ID", dictGetD fields "id" Json.null),
         ("MOLTBOOK_API_KEY", dictGetD fields "api_key" Json.null),
         ("MOLTBOOK_CLAIM_URL", dictGetD fields "claim_url" Json.null)]
        [("MOLTBOOK_NAME", dictGetD fields "name" Json.null)] _ _ _
        (by intro q hq; simp at hq; rcases hq with rfl; simp)
        ht
    · exact getenv_applyEntries_true
        [("MOLTBOOK_ID", dictGetD fields "id" Json.null),
         ("MOLTBOOK_API_KEY", dictGetD fields "api_key" Json.null),
         ("MOLTBOOK_CLAIM_URL", dictGetD fields "claim_url" Json.null),
         ("MOLTBOOK_VERIFY_CODE", dictGetD fields "verification_code" Json.null)]
        [] _ _ _
        (by intro q hq; simp at hq)
        ht
  · intro p hp ht
    rw [mkMapping] at hp
    simp only [List.mem_cons, List.not_mem_nil, or_false] at hp
    rcases hp with rfl | rfl | rfl | rfl | rfl
    · exact getenv_applyEntries_false []
        [("MOLTBOOK_API_KEY", dictGetD fields "api_key" Json.null),
         ("MOLTBOOK_CLAIM_URL", dictGetD fields "claim_url" Json.null),
         ("MOLTBOOK_VERIFY_CODE", dictGetD fields "verification_code" Json.null),
         ("MOLTBOOK_NAME", dictGetD fields "name" Json.null)] _ _ _
        (by intro q hq; simp at hq)
        (by intro q hq; simp at hq; rcases hq with rfl | rfl | rfl | rfl <;> simp)
        ht
    · exact getenv_applyEntries_false
        [("MOLTBOOK_ID", dictGetD fields "id" Json.null)]
        [("MOLTBOOK_CLAIM_URL", dictGetD fields "claim_url" Json.null),
         ("MOLTBOOK_VERIFY_CODE", dictGetD fields "verification_code" Json.null),
         ("MOLTBOOK_NAME", dictGetD fields "name" Json.null)] _ _ _
        (by intro q hq; simp at hq; rcases hq with rfl; simp)
        (by intro q hq; simp at hq; rcases hq with rfl | rfl | rfl <;> simp)
        ht
    · exact getenv_applyEntries_false
        [("MOLTBOOK_ID", dictGetD fields "id" Json.null),
         ("MOLTBOOK_API_KEY", dictGetD fields "api_key" Json.null)]
        [("MOLTBOOK_VERIFY_CODE", dictGetD fields "verification_code" Json.null),
         ("MOLTBOOK_NAME", dictGetD fields "name" Json.null)] _ _ _
        (by intro q hq; simp at hq; rcases hq with rfl | rfl <;> simp)
        (by intro q hq; simp at hq; rcases hq with rfl | rfl <;> simp)
        ht
    · exact getenv_applyEntries_false
        [("MOLTBOOK_ID", dictGetD fields "id" Json.null),
         ("MOLTBOOK_API_KEY", dictGetD fields "api_key" Json.null),
         ("MOLTBOOK_CLAIM_URL", dictGetD fields "claim_url" Json.null)]
        [("MOLTBOOK_NAME", dictGetD fields "name" Json.null)] _ _ _
        (by intro q hq; simp at hq; rcases hq with rfl | rfl | rfl <;> simp)
        (by intro q hq; simp at hq; rcases hq with rfl; simp)
        ht
    · exact getenv_applyEntries_false
        [("MOLTBOOK_ID", dictGetD fields "id" Json.null),
         ("MOLTBOOK_API_KEY", dictGetD fields "api_key" Json.null),
         ("MOLTBOOK_CLAIM_URL", dictGetD fields "claim_url" Json.null),
         ("MOLTBOOK_VERIFY_CODE", dictGetD fields "verification_code" Json.null)]
        [] _ _ _
        (by intro q hq; simp at hq; rcases hq with rfl | rfl | rfl | rfl <;> simp)
        (by intro q hq; simp at hq)
        ht
  · intro k hk
    exact getenv_applyEntries_ne _ _ _ hk

/-- C5 witness: an agent record with a truthy id and api_key, an explicit
null claim_url, and no other fields — exactly the two truthy entries are
persisted on top of a pre-existing unrelated binding. -/
theorem register_persists_exactly_truthy_fields_witness :
    ∃ c1 env2,
      register ⟨none, none, "Unknown Agent"⟩ (some [("OTHER", "keep")]) []
          (Except.ok ⟨200, Except.ok (Json.obj [("agent", Json.obj
            [("id", Json.str "A1"), ("api_key", Json.str "K1"),
             ("claim_url", Json.null)])])⟩)
          (fun _ => false) =
          (true, c1, some (applyEntries [("OTHER", "keep")]
            (mkMapping [("id", Json.str "A1"), ("api_key", Json.str "K1"),
              ("claim_url", Json.null)])), env2)
        ∧ (∀ p ∈ mkMapping [("id", Json.str "A1"), ("api_key", Json.str "K1"),
              ("claim_url", Json.null)], p.2.truthy = true →
            getenv (applyEntries [("OTHER", "keep")]
              (mkMapping [("id", Json.str "A1"), ("api_key", Json.str "K1"),
                ("claim_url", Json.null)])) p.1 = some (pyStr p.2))
        ∧ (∀ p ∈ mkMapping [("id", Json.str "A1"), ("api_key", Json.str "K1"),
              ("claim_url", Json.null)], p.2.truthy = false →
            getenv (applyEntries [("OTHER", "keep")]
              (mkMapping [("id", Json.str "A1"), ("api_key", Json.str "K1"),
                ("claim_url", Json.null)])) p.1
              = getenv [("OTHER", "keep")] p.1)
        ∧ (∀ k, (∀ p ∈ mkMapping [("id", Json.str "A1"),
              ("api_key", Json.str "K1"), ("claim_url", Json.null)], p.1 ≠ k) →
            getenv (applyEntries [("OTHER", "keep")]
              (mkMapping [("id", Json.str "A1"), ("api_key", Json.str "K1"),
                ("claim_url", Json.null)])) k = getenv [("OTHER", "keep")] k) :=
  register_persists_exactly_truthy_fields ⟨none, none, "Unknown Agent"⟩
    (some [("OTHER", "keep")]) []
    ⟨200, Except.ok (Json.obj [("agent", Json.obj
      [("id", Json.str "A1"), ("api_key", Json.str "K1"),
       ("claim_url", Json.null)])])⟩
    (Json.obj [("agent", Json.obj
      [("id", Json.str "A1"), ("api_key", Json.str "K1"),
       ("claim_url", Json.null)])])
    [("id", Json.str "A1"), ("api_key", Json.str "K1"), ("claim_url", Json.null)]
    (by decide) rfl rfl (by simp)

end MoltClient
